import Mathlib

/-!
Verification of `cloudfront-short-url` (`src/src/cloudfront_short_url/generator.py`).

The module generates short redirect URLs: it draws a random lowercase/digit
suffix, forms the storage key `prefix/suffix`, probes the object store for the
key (`head_object`), retries on collision, and finally writes a zero-byte
redirect object and returns `cloudfront_distro/prefix/suffix`.

Embedding choices:
* The backing store is abstracted by a probe oracle
  `probe : Nat → String → ProbeOutcome` giving, for each probe call index and
  candidate key, the outcome of `head_object` (success, `ClientError` with a
  code, or some other exception).  This matches how the spec and the tests
  quantify over probe behaviours (mocked `exists_s3_key`).
* The random source (`random.SystemRandom().choice(...)`) is abstracted by a
  stream `c : Nat → Fin alphabet.length` of choices; the call for loop
  attempt `a` consumes positions `a*L, a*L+1, ...` of the stream.
* The unbounded `while` loop is given fuel; running out of fuel models a run
  that is still looping, and theorems about termination supply enough fuel.
* Each probe and each upload is recorded in an event trace so that the
  "exactly N+1 probes and one write" properties are countable.
-/

namespace CloudfrontShortUrl

/-- `string.ascii_lowercase` from the Python standard library. -/
def ascii_lowercase : String := "abcdefghijklmnopqrstuvwxyz"

/-- `string.digits` from the Python standard library. -/
def string_digits : String := "0123456789"

/-- The alphabet `string.ascii_lowercase + string.digits` that
`generate_random` draws from. -/
def alphabet : List Char := (ascii_lowercase ++ string_digits).toList

/-- The `Settings` dataclass.  The Python field `prefix` is a Lean keyword and
is rendered here as `pfx`; `random_digits` is a Python `int`, hence `Int`. -/
structure Settings where
  region : String
  bucket : String
  pfx : String
  cloudfront_distro : String
  random_digits : Int := 8
  boto_signature_version : String := "s3v4"
deriving DecidableEq

/-- The `frozen` parameter of the `@dataclass` decorator on `Settings`: the
source uses the bare `@dataclass`, whose default is `frozen=False`. -/
def settingsFrozen : Bool := false

/-- Result of a Python attribute assignment on a dataclass instance. -/
inductive SetAttrResult where
  | ok (s : Settings)
  | frozenInstanceError
deriving DecidableEq

/-- Python attribute assignment `settings.region = r`: a dataclass raises
`FrozenInstanceError` on assignment iff it was declared `frozen=True`,
otherwise the field is rebound. -/
def setRegion (s : Settings) (r : String) : SetAttrResult :=
  if settingsFrozen then SetAttrResult.frozenInstanceError
  else SetAttrResult.ok { s with region := r }

/-- The boto3 S3 client as far as the source configures it:
`boto3.client("s3", region_name=settings.region,
config=Config(signature_version=settings.boto_signature_version))`. -/
structure S3Client where
  service : String
  region_name : String
  signature_version : String
deriving DecidableEq

/-- Construction of the client from an instance's settings (the body of the
`s3_client` property). -/
def make_s3_client (s : Settings) : S3Client :=
  { service := "s3"
    region_name := s.region
    signature_version := s.boto_signature_version }

/-- The class-level cache attribute `_cache_s3_client` that
`make_cached_property(func, cache_on_class=True)` stores on the `ShortUrl`
class object itself. -/
structure ClassCache where
  cache_s3_client : Option S3Client
deriving DecidableEq

/-- The class cache before any access: the attribute is not set. -/
def emptyClassCache : ClassCache := { cache_s3_client := none }

/-- One access to the `s3_client` property from an instance whose settings are
`s`, given the current class-level cache: `hasattr` check, `setattr` on miss,
then `getattr`.  Returns the client seen by the caller and the updated
class-level cache. -/
def s3_client_access (s : Settings) (cache : ClassCache) : S3Client × ClassCache :=
  match cache.cache_s3_client with
  | some cl => (cl, cache)
  | none => (make_s3_client s, { cache_s3_client := some (make_s3_client s) })

/-- Outcome of one `head_object` call against the backing store. -/
inductive ProbeOutcome where
  /-- `head_object` returned normally: the object exists. -/
  | ok
  /-- `botocore.exceptions.ClientError` with the given `Error.Code`. -/
  | clientError (code : String)
  /-- any exception that is not a `ClientError` (network failure, ...). -/
  | otherError (msg : String)
deriving DecidableEq

/-- An exception escaping `exists_s3_key` (and hence `generate`). -/
inductive S3Error where
  | clientError (code : String)
  | otherError (msg : String)
deriving DecidableEq

/-- `ShortUrl.exists_s3_key`, as a function of the `head_object` outcome:
success means the key exists; a `ClientError` with code `"404"` or `"403"`
means absent; any other `ClientError` is re-raised; a non-`ClientError`
exception is not caught by the `except` clause and propagates. -/
def exists_s3_key : ProbeOutcome → Except S3Error Bool
  | ProbeOutcome.ok => Except.ok true
  | ProbeOutcome.clientError code =>
    if code = "404" then Except.ok false
    else if code = "403" then Except.ok false
    else Except.error (S3Error.clientError code)
  | ProbeOutcome.otherError msg => Except.error (S3Error.otherError msg)

/-- `ShortUrl.generate_random`: `random_digits` draws from `alphabet`, joined
into a string.  `c` is the abstract random stream and `start` the position of
the first draw; Python `range(n)` is empty for `n ≤ 0`, which `Int.toNat`
models. -/
def generate_random (c : Nat → Fin alphabet.length) (start : Nat) (n : Int) : String :=
  String.mk ((List.range n.toNat).map fun i => alphabet.get (c (start + i)))

/-- The keyword arguments `ShortUrl.upload_kwargs` builds for `put_object`. -/
structure UploadKwargs where
  Bucket : String
  Key : String
  Body : List UInt8
  WebsiteRedirectLocation : String
  ContentType : String
deriving DecidableEq

/-- `ShortUrl.upload_kwargs`: bucket from settings, the candidate key, an
empty body (`b""`), the caller's native URL as redirect target, and content
type `text/plain`. -/
def upload_kwargs (s : Settings) (key native_url : String) : UploadKwargs :=
  { Bucket := s.bucket
    Key := key
    Body := []
    WebsiteRedirectLocation := native_url
    ContentType := "text/plain" }

/-- An observable effect of `generate` on the backing store. -/
inductive Event where
  /-- an existence probe (`head_object`) for the given key. -/
  | probe (key : String)
  /-- an upload (`put_object`) with the given keyword arguments. -/
  | write (kwargs : UploadKwargs)
deriving DecidableEq

/-- Number of existence probes in a trace. -/
def countProbes (evs : List Event) : Nat :=
  evs.countP fun e => match e with | Event.probe _ => true | Event.write _ => false

/-- Number of writes in a trace. -/
def countWrites (evs : List Event) : Nat :=
  evs.countP fun e => match e with | Event.probe _ => false | Event.write _ => true

/-- The `short_id` drawn on loop attempt `attempt` of `generate`: attempt `a`
consumes the stream positions `a*L … a*L+L-1`. -/
def short_id_at (s : Settings) (c : Nat → Fin alphabet.length) (attempt : Nat) : String :=
  generate_random c (attempt * s.random_digits.toNat) s.random_digits

/-- The candidate key formed on loop attempt `attempt`:
`"{}/{}".format(self.settings.prefix, short_id)`. -/
def short_key_at (s : Settings) (c : Nat → Fin alphabet.length) (attempt : Nat) : String :=
  s.pfx ++ "/" ++ short_id_at s c attempt

/-- How a run of `generate` ends. -/
inductive GenOutcome where
  /-- the loop found an absent key, uploaded, and returned the short URL. -/
  | ok (url : String)
  /-- the probe raised and the exception propagated out of `generate`. -/
  | error (e : S3Error)
  /-- the fuel ran out while the loop was still retrying. -/
  | outOfFuel
deriving DecidableEq

/-- The `while check` loop of `ShortUrl.generate`, with fuel bounding the
number of iterations observed: draw `short_id`, form `short_key`, probe; on
`True` retry, on `False` upload and return
`"{}/{}".format(self.settings.cloudfront_distro, short_key)`, on an exception
propagate it.  Returns the event trace and the outcome. -/
def generateAux (s : Settings) (c : Nat → Fin alphabet.length)
    (probe : Nat → String → ProbeOutcome) (native_url : String) :
    Nat → Nat → List Event × GenOutcome
  | _, 0 => ([], GenOutcome.outOfFuel)
  | attempt, fuel+1 =>
    match exists_s3_key (probe attempt (short_key_at s c attempt)) with
    | Except.error e => ([Event.probe (short_key_at s c attempt)], GenOutcome.error e)
    | Except.ok true =>
      let r := generateAux s c probe native_url (attempt+1) fuel
      (Event.probe (short_key_at s c attempt) :: r.1, r.2)
    | Except.ok false =>
      ([Event.probe (short_key_at s c attempt),
        Event.write (upload_kwargs s (short_key_at s c attempt) native_url)],
       GenOutcome.ok (s.cloudfront_distro ++ "/" ++ short_key_at s c attempt))

/-- `ShortUrl.generate(native_url)`: run the loop from attempt 0. -/
def generate (s : Settings) (c : Nat → Fin alphabet.length)
    (probe : Nat → String → ProbeOutcome) (native_url : String) (fuel : Nat) :
    List Event × GenOutcome :=
  generateAux s c probe native_url 0 fuel

/-- Python `str.split(sep)` for a one-character separator, on the character
list of the string: splits on every occurrence, keeping empty pieces. -/
def splitOnChar (sep : Char) : List Char → List (List Char)
  | [] => [[]]
  | ch :: cs =>
    if ch = sep then [] :: splitOnChar sep cs
    else
      match splitOnChar sep cs with
      | [] => [[ch]]
      | g :: gs => (ch :: g) :: gs

/-- The example configuration of §8 of the spec (also the unit test's). -/
def exampleSettings : Settings :=
  { region := "us-east-1"
    bucket := "b"
    pfx := "a"
    cloudfront_distro := "shor.ty"
    random_digits := 4
    boto_signature_version := "s3v4" }

/-- A concrete random stream: always the first alphabet symbol. -/
def constChoice : Nat → Fin alphabet.length := fun _ => ⟨0, by decide⟩

/-- A probe behaviour that always reports "absent" (missing key, 404). -/
def absentProbe : Nat → String → ProbeOutcome :=
  fun _ _ => ProbeOutcome.clientError "404"

/-- A probe behaviour reporting "exists" for the first `n` probes and
"absent" afterwards. -/
def collideThenAbsentProbe (n : Nat) : Nat → String → ProbeOutcome :=
  fun i _ => if i < n then ProbeOutcome.ok else ProbeOutcome.clientError "404"

/-- A probe behaviour that always reports "exists". -/
def alwaysExistsProbe : Nat → String → ProbeOutcome :=
  fun _ _ => ProbeOutcome.ok

/-- A probe behaviour that raises a non-`ClientError` exception. -/
def raiseProbe : Nat → String → ProbeOutcome :=
  fun _ _ => ProbeOutcome.otherError "ConnectionError"

/-! ### Helper lemmas -/

theorem length_generate_random (c : Nat → Fin alphabet.length) (start : Nat) (n : Int) :
    (generate_random c start n).length = n.toNat := by
  simp [generate_random, String.length_mk]

theorem data_generate_random (c : Nat → Fin alphabet.length) (start : Nat) (n : Int) :
    (generate_random c start n).data
      = (List.range n.toNat).map fun i => alphabet.get (c (start + i)) := rfl

theorem mem_alphabet_of_mem_generate_random {ch : Char}
    (c : Nat → Fin alphabet.length) (start : Nat) (n : Int)
    (h : ch ∈ (generate_random c start n).data) : ch ∈ alphabet := by
  rw [data_generate_random] at h
  obtain ⟨i, _, rfl⟩ := List.mem_map.1 h
  exact alphabet.get_mem _ _

theorem splitOnChar_ne_nil (sep : Char) (xs : List Char) : splitOnChar sep xs ≠ [] := by
  induction xs with
  | nil => simp [splitOnChar]
  | cons ch cs ih =>
    by_cases hch : ch = sep
    · simp [splitOnChar, hch]
    · simp only [splitOnChar, if_neg hch]
      obtain ⟨g, gs, hg⟩ := List.exists_cons_of_ne_nil ih
      rw [hg]
      simp

theorem splitOnChar_append (sep : Char) (xs ys : List Char) :
    splitOnChar sep (xs ++ sep :: ys) = splitOnChar sep xs ++ splitOnChar sep ys := by
  induction xs with
  | nil => simp [splitOnChar]
  | cons ch cs ih =>
    by_cases hch : ch = sep
    · subst hch
      simp [splitOnChar, ih]
    · simp only [List.cons_append, splitOnChar, if_neg hch, List.append_eq]
      rw [ih]
      obtain ⟨g, gs, hg⟩ := List.exists_cons_of_ne_nil (splitOnChar_ne_nil sep cs)
      rw [hg]
      simp

theorem splitOnChar_of_not_mem {sep : Char} {xs : List Char} (h : sep ∉ xs) :
    splitOnChar sep xs = [xs] := by
  induction xs with
  | nil => rfl
  | cons ch cs ih =>
    have hch : ¬ ch = sep := fun e => h (e ▸ List.mem_cons_self ch cs)
    rw [splitOnChar, if_neg hch, ih fun hm => h (List.mem_cons_of_mem _ hm)]

theorem countProbes_cons_probe (k : String) (evs : List Event) :
    countProbes (Event.probe k :: evs) = countProbes evs + 1 := by
  simp [countProbes, List.countP_cons]

theorem countWrites_cons_probe (k : String) (evs : List Event) :
    countWrites (Event.probe k :: evs) = countWrites evs := by
  simp [countWrites, List.countP_cons]

/-- A run that sees "exists" on its first `N` probes (counting from loop
attempt `attempt`) and "absent" on the next probe: the trace is `N+1` probes
followed by exactly one write of the key drawn on attempt `attempt + N`, and
the outcome is the short URL for that key. -/
theorem generateAux_collisions_then_absent (s : Settings) (c : Nat → Fin alphabet.length)
    (probe : Nat → String → ProbeOutcome) (u : String) :
    ∀ N attempt fuel : Nat,
      (∀ i, i < N → ∀ k, exists_s3_key (probe (attempt + i) k) = Except.ok true) →
      (∀ k, exists_s3_key (probe (attempt + N) k) = Except.ok false) →
      N < fuel →
      ∃ ps,
        generateAux s c probe u attempt fuel =
          (ps ++ [Event.write (upload_kwargs s (short_key_at s c (attempt + N)) u)],
           GenOutcome.ok (s.cloudfront_distro ++ "/" ++ short_key_at s c (attempt + N))) ∧
        countProbes ps = N + 1 ∧ countWrites ps = 0 := by
  intro N
  induction N with
  | zero =>
    intro attempt fuel h1 h2 hf
    obtain ⟨f, rfl⟩ : ∃ f, fuel = f + 1 := ⟨fuel - 1, by omega⟩
    refine ⟨[Event.probe (short_key_at s c attempt)], ?_, by simp [countProbes], by simp [countWrites]⟩
    have h2a : exists_s3_key (probe attempt (short_key_at s c attempt)) = Except.ok false := by
      simpa using h2 (short_key_at s c attempt)
    simp [generateAux, h2a]
  | succ N ih =>
    intro attempt fuel h1 h2 hf
    obtain ⟨f, rfl⟩ : ∃ f, fuel = f + 1 := ⟨fuel - 1, by omega⟩
    have hfirst : exists_s3_key (probe attempt (short_key_at s c attempt)) = Except.ok true := by
      have h := h1 0 (Nat.succ_pos N) (short_key_at s c attempt)
      simpa using h
    obtain ⟨ps, hps, hcp, hcw⟩ := ih (attempt + 1) f
      (by
        intro i hi k
        have h := h1 (i + 1) (by omega) k
        have e : attempt + (i + 1) = attempt + 1 + i := by omega
        rwa [e] at h)
      (by
        intro k
        have h := h2 k
        have e : attempt + (N + 1) = attempt + 1 + N := by omega
        rwa [e] at h)
      (by omega)
    have eidx : attempt + (N + 1) = attempt + 1 + N := by omega
    rw [eidx]
    refine ⟨Event.probe (short_key_at s c attempt) :: ps, ?_, ?_, ?_⟩
    · simp only [generateAux, hfirst]
      rw [hps]
      simp
    · rw [countProbes_cons_probe, hcp]
    · rw [countWrites_cons_probe, hcw]

/-- A run that sees "exists" on its first `N` probes and a propagating
exception on the next probe: the trace is `N+1` probes and no write, and the
exception is the outcome. -/
theorem generateAux_collisions_then_error (s : Settings) (c : Nat → Fin alphabet.length)
    (probe : Nat → String → ProbeOutcome) (u : String) (e : S3Error) :
    ∀ N attempt fuel : Nat,
      (∀ i, i < N → ∀ k, exists_s3_key (probe (attempt + i) k) = Except.ok true) →
      (∀ k, exists_s3_key (probe (attempt + N) k) = Except.error e) →
      N < fuel →
      ∃ evs,
        generateAux s c probe u attempt fuel = (evs, GenOutcome.error e) ∧
        countProbes evs = N + 1 ∧ countWrites evs = 0 := by
  intro N
  induction N with
  | zero =>
    intro attempt fuel h1 h2 hf
    obtain ⟨f, rfl⟩ : ∃ f, fuel = f + 1 := ⟨fuel - 1, by omega⟩
    refine ⟨[Event.probe (short_key_at s c attempt)], ?_, by simp [countProbes], by simp [countWrites]⟩
    have h2a : exists_s3_key (probe attempt (short_key_at s c attempt)) = Except.error e := by
      simpa using h2 (short_key_at s c attempt)
    simp [generateAux, h2a]
  | succ N ih =>
    intro attempt fuel h1 h2 hf
    obtain ⟨f, rfl⟩ : ∃ f, fuel = f + 1 := ⟨fuel - 1, by omega⟩
    have hfirst : exists_s3_key (probe attempt (short_key_at s c attempt)) = Except.ok true := by
      have h := h1 0 (Nat.succ_pos N) (short_key_at s c attempt)
      simpa using h
    obtain ⟨evs, hevs, hcp, hcw⟩ := ih (attempt + 1) f
      (by
        intro i hi k
        have h := h1 (i + 1) (by omega) k
        have eq1 : attempt + (i + 1) = attempt + 1 + i := by omega
        rwa [eq1] at h)
      (by
        intro k
        have h := h2 k
        have eq1 : attempt + (N + 1) = attempt + 1 + N := by omega
        rwa [eq1] at h)
      (by omega)
    refine ⟨Event.probe (short_key_at s c attempt) :: evs, ?_, ?_, ?_⟩
    · simp only [generateAux, hfirst]
      rw [hevs]
    · rw [countProbes_cons_probe, hcp]
    · rw [countWrites_cons_probe, hcw]

/-- Under a probe that always reports "exists", every amount of fuel is used
up probing: the run is still in the loop, has written nothing, and has
performed one probe per unit of fuel. -/
theorem generateAux_always_exists (s : Settings) (c : Nat → Fin alphabet.length)
    (probe : Nat → String → ProbeOutcome) (u : String)
    (h : ∀ i k, exists_s3_key (probe i k) = Except.ok true) :
    ∀ fuel attempt : Nat,
      (generateAux s c probe u attempt fuel).2 = GenOutcome.outOfFuel ∧
      countWrites (generateAux s c probe u attempt fuel).1 = 0 ∧
      countProbes (generateAux s c probe u attempt fuel).1 = fuel := by
  intro fuel
  induction fuel with
  | zero =>
    intro attempt
    refine ⟨rfl, ?_, ?_⟩ <;> simp [generateAux, countWrites, countProbes]
  | succ f ih =>
    intro attempt
    obtain ⟨h2, hw, hp⟩ := ih (attempt + 1)
    refine ⟨?_, ?_, ?_⟩ <;>
      simp [generateAux, h attempt (short_key_at s c attempt),
        countWrites_cons_probe, countProbes_cons_probe, h2, hw, hp]

/-- Every successful return value of the loop is the distribution host,
a slash, and the candidate key of some attempt. -/
theorem generateAux_ok_shape (s : Settings) (c : Nat → Fin alphabet.length)
    (probe : Nat → String → ProbeOutcome) (u : String) :
    ∀ fuel attempt evs url,
      generateAux s c probe u attempt fuel = (evs, GenOutcome.ok url) →
      ∃ a, url = s.cloudfront_distro ++ "/" ++ short_key_at s c a := by
  intro fuel
  induction fuel with
  | zero =>
    intro attempt evs url h
    simp [generateAux] at h
  | succ f ih =>
    intro attempt evs url h
    rw [generateAux] at h
    cases hp : exists_s3_key (probe attempt (short_key_at s c attempt)) with
    | error e =>
      rw [hp] at h
      simp at h
    | ok b =>
      cases b
      · rw [hp] at h
        simp only [Prod.mk.injEq, GenOutcome.ok.injEq] at h
        exact ⟨attempt, h.2.symm⟩
      · rw [hp] at h
        simp only [Prod.mk.injEq] at h
        have h2 : (generateAux s c probe u (attempt + 1) f).2 = GenOutcome.ok url := h.2
        exact ih (attempt + 1) (generateAux s c probe u (attempt + 1) f).1 url
          (Prod.ext rfl h2)

theorem countProbes_append (a b : List Event) :
    countProbes (a ++ b) = countProbes a + countProbes b := by
  simp [countProbes, List.countP_append]

theorem countWrites_append (a b : List Event) :
    countWrites (a ++ b) = countWrites a + countWrites b := by
  simp [countWrites, List.countP_append]

/-! ### Claims -/

/-- C1: for every probe behaviour that reports "exists" for the first `N`
candidate keys and "absent" for the next one, `generate(native_url)` performs
exactly `N+1` existence probes and then exactly one write (the probe-only
part of the trace is followed by a single final write event); with a probe
that always reports "absent" this is the instance `N = 0`: one probe and one
write per call. -/
theorem C1_probes_then_one_write (s : Settings) (c : Nat → Fin alphabet.length)
    (probe : Nat → String → ProbeOutcome) (u : String) (N fuel : Nat)
    (hexists : ∀ i, i < N → ∀ k, exists_s3_key (probe i k) = Except.ok true)
    (habsent : ∀ k, exists_s3_key (probe N k) = Except.ok false)
    (hfuel : N < fuel) :
    ∃ evs, generate s c probe u fuel =
        (evs, GenOutcome.ok (s.cloudfront_distro ++ "/" ++ short_key_at s c N)) ∧
      countProbes evs = N + 1 ∧ countWrites evs = 1 ∧
      ∃ ps kw, evs = ps ++ [Event.write kw] ∧ countWrites ps = 0 := by
  obtain ⟨ps, hps, hcp, hcw⟩ :=
    generateAux_collisions_then_absent s c probe u N 0 fuel
      (by simpa using hexists) (by simpa using habsent) hfuel
  refine ⟨ps ++ [Event.write (upload_kwargs s (short_key_at s c N) u)], ?_, ?_, ?_, ?_⟩
  · simpa [generate] using hps
  · rw [countProbes_append, hcp]
    rfl
  · rw [countWrites_append, hcw]
    rfl
  · exact ⟨ps, upload_kwargs s (short_key_at s c N) u, rfl, hcw⟩

theorem C1_witness :
    ∃ evs, generate exampleSettings constChoice (collideThenAbsentProbe 2) "http://www.google.com" 3 =
        (evs, GenOutcome.ok (exampleSettings.cloudfront_distro ++ "/" ++
          short_key_at exampleSettings constChoice 2)) ∧
      countProbes evs = 2 + 1 ∧ countWrites evs = 1 ∧
      ∃ ps kw, evs = ps ++ [Event.write kw] ∧ countWrites ps = 0 :=
  C1_probes_then_one_write exampleSettings constChoice (collideThenAbsentProbe 2)
    "http://www.google.com" 2 3
    (by intro i hi k; simp [collideThenAbsentProbe, hi, exists_s3_key])
    (by intro k; simp [collideThenAbsentProbe, exists_s3_key])
    (by omega)

/-- C2: `exists_s3_key` returns `true` when the metadata fetch succeeds,
returns `false` when the backend reports a `ClientError` with code `"404"` or
`"403"`, re-raises a `ClientError` with any other code unchanged, and lets a
non-`ClientError` exception propagate unchanged — no other error is mapped to
"absent". -/
theorem C2_exists_s3_key_classification :
    exists_s3_key ProbeOutcome.ok = Except.ok true ∧
    exists_s3_key (ProbeOutcome.clientError "404") = Except.ok false ∧
    exists_s3_key (ProbeOutcome.clientError "403") = Except.ok false ∧
    (∀ code, code ≠ "404" → code ≠ "403" →
      exists_s3_key (ProbeOutcome.clientError code) = Except.error (S3Error.clientError code)) ∧
    (∀ msg, exists_s3_key (ProbeOutcome.otherError msg) = Except.error (S3Error.otherError msg)) := by
  refine ⟨rfl, by simp [exists_s3_key], by simp [exists_s3_key], ?_, fun msg => rfl⟩
  intro code h4 h3
  simp [exists_s3_key, h4, h3]

theorem C2_witness :
    ("500" : String) ≠ "404" ∧
    exists_s3_key (ProbeOutcome.clientError "500") = Except.error (S3Error.clientError "500") :=
  ⟨by decide, C2_exists_s3_key_classification.2.2.2.1 "500" (by decide) (by decide)⟩

/-- C3: if the probe raises an error that is not normalized to "absent"
(after any number of collision retries), `generate` propagates that error and
performs no write: the trace holds the probes only, no write event, and the
outcome is the error, not a short URL. -/
theorem C3_error_propagates_no_write (s : Settings) (c : Nat → Fin alphabet.length)
    (probe : Nat → String → ProbeOutcome) (u : String) (N fuel : Nat) (e : S3Error)
    (hexists : ∀ i, i < N → ∀ k, exists_s3_key (probe i k) = Except.ok true)
    (herr : ∀ k, exists_s3_key (probe N k) = Except.error e)
    (hfuel : N < fuel) :
    ∃ evs, generate s c probe u fuel = (evs, GenOutcome.error e) ∧
      countWrites evs = 0 ∧ countProbes evs = N + 1 := by
  obtain ⟨evs, hevs, hcp, hcw⟩ :=
    generateAux_collisions_then_error s c probe u e N 0 fuel
      (by simpa using hexists) (by simpa using herr) hfuel
  exact ⟨evs, by simpa [generate] using hevs, hcw, hcp⟩

theorem C3_witness :
    ∃ evs, generate exampleSettings constChoice raiseProbe "http://www.google.com" 1 =
        (evs, GenOutcome.error (S3Error.otherError "ConnectionError")) ∧
      countWrites evs = 0 ∧ countProbes evs = 0 + 1 :=
  C3_error_propagates_no_write exampleSettings constChoice raiseProbe "http://www.google.com"
    0 1 (S3Error.otherError "ConnectionError")
    (by intro i hi k; omega)
    (fun k => rfl)
    (by omega)

/-- C4: the loop terminates exactly when the probe eventually reports
"absent": a probe reporting "exists" for finitely many candidates and then
"absent" makes `generate` reach the write and return (any fuel beyond the
collision count suffices), while a probe reporting "exists" forever is never
cut off by the loop — for every amount of fuel the run is still probing, one
probe per iteration, with no write and no return. -/
theorem C4_terminates_iff_eventually_absent :
    (∀ (s : Settings) (c : Nat → Fin alphabet.length)
        (probe : Nat → String → ProbeOutcome) (u : String) (N : Nat),
      (∀ i, i < N → ∀ k, exists_s3_key (probe i k) = Except.ok true) →
      (∀ k, exists_s3_key (probe N k) = Except.ok false) →
      ∀ fuel, N < fuel →
        ∃ ps, generate s c probe u fuel =
          (ps ++ [Event.write (upload_kwargs s (short_key_at s c N) u)],
           GenOutcome.ok (s.cloudfront_distro ++ "/" ++ short_key_at s c N))) ∧
    (∀ (s : Settings) (c : Nat → Fin alphabet.length)
        (probe : Nat → String → ProbeOutcome) (u : String),
      (∀ i k, exists_s3_key (probe i k) = Except.ok true) →
      ∀ fuel, (generate s c probe u fuel).2 = GenOutcome.outOfFuel ∧
        countWrites (generate s c probe u fuel).1 = 0 ∧
        countProbes (generate s c probe u fuel).1 = fuel) := by
  constructor
  · intro s c probe u N hexists habsent fuel hfuel
    obtain ⟨ps, hps, _, _⟩ :=
      generateAux_collisions_then_absent s c probe u N 0 fuel
        (by simpa using hexists) (by simpa using habsent) hfuel
    exact ⟨ps, by simpa [generate] using hps⟩
  · intro s c probe u h fuel
    exact generateAux_always_exists s c probe u h fuel 0

theorem C4_witness :
    (∃ ps, generate exampleSettings constChoice absentProbe "http://www.google.com" 1 =
      (ps ++ [Event.write (upload_kwargs exampleSettings
          (short_key_at exampleSettings constChoice 0) "http://www.google.com")],
       GenOutcome.ok (exampleSettings.cloudfront_distro ++ "/" ++
          short_key_at exampleSettings constChoice 0))) ∧
    (generate exampleSettings constChoice alwaysExistsProbe "http://www.google.com" 5).2 =
      GenOutcome.outOfFuel ∧
    countProbes (generate exampleSettings constChoice alwaysExistsProbe "http://www.google.com" 5).1 = 5 :=
  ⟨C4_terminates_iff_eventually_absent.1 exampleSettings constChoice absentProbe
      "http://www.google.com" 0 (by intro i hi k; omega) (fun k => rfl) 1 (by omega),
   (C4_terminates_iff_eventually_absent.2 exampleSettings constChoice alwaysExistsProbe
      "http://www.google.com" (fun i k => rfl) 5).1,
   (C4_terminates_iff_eventually_absent.2 exampleSettings constChoice alwaysExistsProbe
      "http://www.google.com" (fun i k => rfl) 5).2.2⟩

/-- C5: whenever `generate` returns under a valid configuration (positive
`random_digits`), the returned string has length
`len(cloudfront_distro) + 1 + len(prefix) + 1 + random_digits`: it is
`cloudfront_distro ++ "/" ++ prefix ++ "/" ++ suffix` with a suffix of exactly
`random_digits` characters. -/
theorem C5_url_length (s : Settings) (c : Nat → Fin alphabet.length)
    (probe : Nat → String → ProbeOutcome) (u : String) (fuel : Nat)
    (evs : List Event) (url : String)
    (hvalid : 0 < s.random_digits)
    (h : generate s c probe u fuel = (evs, GenOutcome.ok url)) :
    url.length = s.cloudfront_distro.length + 1 + s.pfx.length + 1 + s.random_digits.toNat ∧
    (url.length : Int)
      = s.cloudfront_distro.length + 1 + s.pfx.length + 1 + s.random_digits := by
  obtain ⟨a, rfl⟩ := generateAux_ok_shape s c probe u fuel 0 evs url h
  have hslash : ("/" : String).length = 1 := rfl
  have hlen : (s.cloudfront_distro ++ "/" ++ short_key_at s c a).length
      = s.cloudfront_distro.length + 1 + s.pfx.length + 1 + s.random_digits.toNat := by
    simp only [short_key_at, short_id_at, String.length_append, hslash,
      length_generate_random]
    omega
  refine ⟨hlen, ?_⟩
  rw [hlen]
  have ht : (s.random_digits.toNat : Int) = s.random_digits :=
    Int.toNat_of_nonneg hvalid.le
  push_cast [ht]
  ring

theorem C5_witness :
    (0 : Int) < exampleSettings.random_digits ∧
    generate exampleSettings constChoice absentProbe "http://www.google.com" 1 =
      ([Event.probe "a/aaaa",
        Event.write (upload_kwargs exampleSettings "a/aaaa" "http://www.google.com")],
       GenOutcome.ok "shor.ty/a/aaaa") ∧
    ("shor.ty/a/aaaa" : String).length =
      exampleSettings.cloudfront_distro.length + 1 + exampleSettings.pfx.length + 1 +
        exampleSettings.random_digits.toNat := by
  refine ⟨by decide, by decide, ?_⟩
  exact (C5_url_length exampleSettings constChoice absentProbe "http://www.google.com" 1
    [Event.probe "a/aaaa",
     Event.write (upload_kwargs exampleSettings "a/aaaa" "http://www.google.com")]
    "shor.ty/a/aaaa" (by decide) (by decide)).1

/-- C6: whenever `generate` returns, splitting the returned string on `/`
yields the segments of the distribution host, then the segments of the
prefix, then a suffix of exactly `random_digits` characters drawn only from
`[a-z0-9]`; when the distribution host and the prefix are slash-free (the
accepted configurations are not forced to be), that is exactly 3 segments. -/
theorem C6_url_split (s : Settings) (c : Nat → Fin alphabet.length)
    (probe : Nat → String → ProbeOutcome) (u : String) (fuel : Nat)
    (evs : List Event) (url : String)
    (h : generate s c probe u fuel = (evs, GenOutcome.ok url)) :
    ∃ sfx : List Char,
      url.data = s.cloudfront_distro.data ++ '/' :: (s.pfx.data ++ '/' :: sfx) ∧
      splitOnChar '/' url.data =
        splitOnChar '/' s.cloudfront_distro.data ++ splitOnChar '/' s.pfx.data ++ [sfx] ∧
      sfx.length = s.random_digits.toNat ∧
      (∀ ch ∈ sfx, ch ∈ alphabet) ∧
      ('/' ∉ s.cloudfront_distro.data → '/' ∉ s.pfx.data →
        (splitOnChar '/' url.data).length = 3) := by
  obtain ⟨a, rfl⟩ := generateAux_ok_shape s c probe u fuel 0 evs url h
  have hsd : ("/" : String).data = ['/'] := rfl
  have hdata : (s.cloudfront_distro ++ "/" ++ short_key_at s c a).data
      = s.cloudfront_distro.data ++ '/' :: (s.pfx.data ++ '/' :: (short_id_at s c a).data) := by
    simp [short_key_at, String.data_append, hsd]
  have hmem : ∀ ch ∈ (short_id_at s c a).data, ch ∈ alphabet := fun ch hm =>
    mem_alphabet_of_mem_generate_random c _ _ hm
  have hnoslash : '/' ∉ (short_id_at s c a).data := by
    intro hm
    have hal : ('/' : Char) ∉ alphabet := by decide
    exact hal (hmem _ hm)
  have hsplit : splitOnChar '/' (s.cloudfront_distro ++ "/" ++ short_key_at s c a).data
      = splitOnChar '/' s.cloudfront_distro.data ++ splitOnChar '/' s.pfx.data ++
        [(short_id_at s c a).data] := by
    rw [hdata, splitOnChar_append, splitOnChar_append, splitOnChar_of_not_mem hnoslash,
      List.append_assoc]
  refine ⟨(short_id_at s c a).data, hdata, hsplit, length_generate_random c _ _, hmem, ?_⟩
  intro hd hp
  rw [hsplit, splitOnChar_of_not_mem hd, splitOnChar_of_not_mem hp]
  rfl

theorem C6_witness :
    ∃ sfx : List Char,
      ("shor.ty/a/aaaa" : String).data =
        exampleSettings.cloudfront_distro.data ++ '/' ::
          (exampleSettings.pfx.data ++ '/' :: sfx) ∧
      splitOnChar '/' ("shor.ty/a/aaaa" : String).data =
        splitOnChar '/' exampleSettings.cloudfront_distro.data ++
          splitOnChar '/' exampleSettings.pfx.data ++ [sfx] ∧
      sfx.length = exampleSettings.random_digits.toNat ∧
      (∀ ch ∈ sfx, ch ∈ alphabet) ∧
      ('/' ∉ exampleSettings.cloudfront_distro.data → '/' ∉ exampleSettings.pfx.data →
        (splitOnChar '/' ("shor.ty/a/aaaa" : String).data).length = 3) :=
  C6_url_split exampleSettings constChoice absentProbe "http://www.google.com" 1
    [Event.probe "a/aaaa",
     Event.write (upload_kwargs exampleSettings "a/aaaa" "http://www.google.com")]
    "shor.ty/a/aaaa" (by decide)

/-- C7: for every positive length `L`, `generate_random` produces a string of
exactly `L` characters, each drawn from the 36-symbol alphabet made of the 26
lowercase ASCII letters and the 10 digits. -/
theorem C7_generate_random_spec (c : Nat → Fin alphabet.length) (start : Nat) (L : Int)
    (hL : 0 < L) :
    (generate_random c start L).length = L.toNat ∧
    ((generate_random c start L).length : Int) = L ∧
    (∀ ch ∈ (generate_random c start L).data, ch ∈ alphabet) ∧
    alphabet.length = 36 ∧
    (∀ ch ∈ alphabet, ch.isLower = true ∨ ch.isDigit = true) ∧
    (alphabet.countP fun ch => ch.isLower) = 26 ∧
    (alphabet.countP fun ch => ch.isDigit) = 10 := by
  refine ⟨length_generate_random c start L, ?_,
    fun ch hm => mem_alphabet_of_mem_generate_random c start L hm,
    by decide, by decide, by decide, by decide⟩
  rw [length_generate_random]
  exact Int.toNat_of_nonneg hL.le

theorem C7_witness :
    (generate_random constChoice 0 4).length = (4 : Int).toNat ∧
    (((generate_random constChoice 0 4).length : Int) = 4) ∧
    (∀ ch ∈ (generate_random constChoice 0 4).data, ch ∈ alphabet) :=
  ⟨(C7_generate_random_spec constChoice 0 4 (by decide)).1,
   (C7_generate_random_spec constChoice 0 4 (by decide)).2.1,
   (C7_generate_random_spec constChoice 0 4 (by decide)).2.2.1⟩

/-- C10: for `random_digits ≤ 0`, `generate_random` is total and returns the
empty string (Python `range(n)` is empty for `n ≤ 0`), so once the probe
reports "absent" `generate` returns exactly
`cloudfront_distro ++ "/" ++ prefix ++ "/"`. -/
theorem C10_nonpositive_digits (s : Settings) (c : Nat → Fin alphabet.length)
    (probe : Nat → String → ProbeOutcome) (u : String) (fuel start : Nat)
    (hL : s.random_digits ≤ 0)
    (habsent : ∀ k, exists_s3_key (probe 0 k) = Except.ok false)
    (hfuel : 0 < fuel) :
    generate_random c start s.random_digits = "" ∧
    ∃ evs, generate s c probe u fuel =
      (evs, GenOutcome.ok (s.cloudfront_distro ++ "/" ++ (s.pfx ++ "/"))) := by
  have hz : s.random_digits.toNat = 0 := Int.toNat_of_nonpos hL
  have hgr : ∀ st, generate_random c st s.random_digits = "" := by
    intro st
    rw [generate_random, hz]
    rfl
  refine ⟨hgr start, ?_⟩
  obtain ⟨ps, hps, _, _⟩ := generateAux_collisions_then_absent s c probe u 0 0 fuel
    (by intro i hi k; omega) (by simpa using habsent) hfuel
  have hkey : short_key_at s c 0 = s.pfx ++ "/" := by
    rw [short_key_at, short_id_at, hgr, String.append_empty]
  simp only [Nat.add_zero] at hps
  rw [hkey] at hps
  exact ⟨_, by simpa [generate] using hps⟩

theorem C10_witness :
    generate_random constChoice 0 (-3) = "" ∧
    ∃ evs, generate { exampleSettings with random_digits := -3 } constChoice absentProbe
        "http://www.google.com" 1 =
      (evs, GenOutcome.ok ("shor.ty" ++ "/" ++ ("a" ++ "/"))) :=
  C10_nonpositive_digits { exampleSettings with random_digits := -3 } constChoice
    absentProbe "http://www.google.com" 1 0 (by decide) (fun k => rfl) (by decide)

/-- C8 counterexample: `Settings` is declared with the bare `@dataclass`,
which is not frozen, so an attribute assignment on a constructed instance
succeeds instead of being rejected — refuting "none of its fields can be
reassigned" on a concrete instance. -/
theorem C8_counterexample :
    setRegion exampleSettings "eu-west-1" =
      SetAttrResult.ok { exampleSettings with region := "eu-west-1" } ∧
    setRegion exampleSettings "eu-west-1" ≠ SetAttrResult.frozenInstanceError := by
  constructor
  · rfl
  · decide

/-- C8 (amended): `Settings` is a plain, non-frozen dataclass, so field
reassignment after construction is not prevented by the language — every
assignment succeeds and rebinds the field; the read-only discipline is only a
convention of the code, which the embedding reflects by every `ShortUrl`
operation taking the settings as a pure, unmodified input. -/
theorem C8_settings_not_frozen :
    settingsFrozen = false ∧
    (∀ (s : Settings) (r : String), setRegion s r = SetAttrResult.ok { s with region := r }) :=
  ⟨rfl, fun _ _ => rfl⟩

/-- C9: the storage client is built on first access to `s3_client` and cached
at class scope: the first access builds it from that instance's settings
(region and signature version), and any later access — from any instance,
even one with different settings — returns the same cached client and leaves
the cache unchanged, never using the later instance's region or signature
settings. -/
theorem C9_class_scoped_client_cache (s1 s2 : Settings) :
    (s3_client_access s1 emptyClassCache).1 = make_s3_client s1 ∧
    (make_s3_client s1).region_name = s1.region ∧
    (make_s3_client s1).signature_version = s1.boto_signature_version ∧
    (s3_client_access s1 emptyClassCache).2.cache_s3_client = some (make_s3_client s1) ∧
    (s3_client_access s2 (s3_client_access s1 emptyClassCache).2).1 = make_s3_client s1 ∧
    (s3_client_access s2 (s3_client_access s1 emptyClassCache).2).2 =
      (s3_client_access s1 emptyClassCache).2 :=
  ⟨rfl, rfl, rfl, rfl, rfl, rfl⟩

end CloudfrontShortUrl
